import Mathlib

/-!
# Reservation Conflict Engine — shallow embedding

A shallow embedding of the booking (reservation) subsystem of the
`lan-party` repository, translated from `src/services/bookingService.js`
(the service operating on the Prisma `booking` table) and
`src/schemas/bookingSchema.js` (the zod input schema wired in front of the
create/update routes in `src/routes/...`).

The Prisma store is modelled as a list of records plus an autoincrement
counter.  Each Prisma call of the service becomes one explicit operation on
that state; the service functions thread the state and return
`Except ApiError _ × Store`, mirroring the throw-on-error style of the
source (`error.status` 404 → `NotFound`, 409 → `Conflict`, and the zod
validation failure of the route layer → `ValidationError`).

JavaScript `Date` values compare numerically, so timestamps are `Int`.
-/

namespace LanParty

/-- Results of the fallible operations are compared concretely, so `Except`
needs decidable equality. -/
instance exceptDecEq {e a : Type} [DecidableEq e] [DecidableEq a] :
    DecidableEq (Except e a) :=
  fun x y =>
    match x, y with
    | Except.error u, Except.error v =>
      if h : u = v then Decidable.isTrue (by rw [h]) else
        Decidable.isFalse (fun hc => h (Except.error.inj hc))
    | Except.error _, Except.ok _ => Decidable.isFalse (fun hc => Except.noConfusion hc)
    | Except.ok _, Except.error _ => Decidable.isFalse (fun hc => Except.noConfusion hc)
    | Except.ok u, Except.ok v =>
      if h : u = v then Decidable.isTrue (by rw [h]) else
        Decidable.isFalse (fun hc => h (Except.ok.inj hc))

/-- A row of the Prisma `booking` table (the fields the service reads or
writes; the audit timestamps play no role in any operation modelled here). -/
structure Booking where
  id : Nat
  stationId : Nat
  userId : Nat
  startTime : Int
  endTime : Int
  status : String
deriving DecidableEq, Repr

/-- The Prisma-backed store: the `booking` table plus the autoincrement
counter for `id` (SQLite autoincrement starts at 1). -/
structure Store where
  bookings : List Booking
  nextId : Nat
deriving DecidableEq, Repr

/-- The error kinds the service and route layer surface: `error.status = 409`
(`Station non disponible pour ce créneau`), `error.status = 404`
(`Booking not found`), and the zod rejection of the route layer. -/
inductive ApiError where
  | Conflict
  | NotFound
  | ValidationError
deriving DecidableEq, Repr

/-- The payload `create` receives after upstream validation: all fields
present and typed (zod has coerced ids to integers and times to dates). -/
structure BookingData where
  stationId : Nat
  userId : Nat
  startTime : Int
  endTime : Int
  status : String
deriving DecidableEq, Repr

/-- The payload `update` receives: any subset of fields may be supplied;
`none` models an absent (`undefined`) field, which `??` skips. -/
structure UpdateData where
  stationId : Option Nat := none
  userId : Option Nat := none
  startTime : Option Int := none
  endTime : Option Int := none
  status : Option String := none
deriving DecidableEq, Repr

/-- The `where` clause of the `findMany` inside `isStationAvailable`:
`{ stationId, AND: [{startTime: {lt: endTime}}, {endTime: {gt: startTime}}],
...(excludeBookingId && { NOT: { id: excludeBookingId } }) }`.
The spread of `excludeBookingId && {...}` adds the `NOT` clause only when
`excludeBookingId` is truthy, i.e. non-null and non-zero. -/
def matchesOverlapQuery (stationId : Nat) (startTime endTime : Int)
    (excludeBookingId : Option Nat) (b : Booking) : Bool :=
  b.stationId == stationId && b.startTime < endTime && b.endTime > startTime &&
    (match excludeBookingId with
     | none => true
     | some e => if e = 0 then true else b.id != e)

/-- `isStationAvailable(stationId, startTime, endTime, excludeBookingId = null)`:
runs the overlap `findMany` and returns whether the result is empty
(`overlappingBookings.length === 0`). -/
def isStationAvailable (st : Store) (stationId : Nat) (startTime endTime : Int)
    (excludeBookingId : Option Nat) : Bool :=
  (st.bookings.filter (matchesOverlapQuery stationId startTime endTime excludeBookingId)).length == 0

/-- `prisma.booking.create({ data })`: appends a row with the autoincrement id
and advances the counter. -/
def insertBooking (st : Store) (d : BookingData) : Booking × Store :=
  let b : Booking :=
    { id := st.nextId, stationId := d.stationId, userId := d.userId,
      startTime := d.startTime, endTime := d.endTime, status := d.status }
  (b, { bookings := st.bookings ++ [b], nextId := st.nextId + 1 })

/-- The availability read of `create` — the first of the two separate Prisma
calls `create` issues (no surrounding transaction in the source). -/
def createCheckPhase (st : Store) (d : BookingData) : Bool :=
  isStationAvailable st d.stationId d.startTime d.endTime none

/-- The write of `create` — the second of the two separate Prisma calls;
`prisma.booking.create` itself performs no conflict re-check. -/
def createWritePhase (st : Store) (d : BookingData) : Store :=
  (insertBooking st d).2

/-- `create(data)`: checks availability, throws 409 without writing when the
check fails, otherwise inserts. -/
def create (st : Store) (d : BookingData) : Except ApiError Booking × Store :=
  if createCheckPhase st d then
    let p := insertBooking st d
    (Except.ok p.1, p.2)
  else
    (Except.error ApiError.Conflict, st)

/-- `findById(id)`: `prisma.booking.findUnique({ where: { id } })`; throws 404
when the row is absent. Read-only. -/
def findById (st : Store) (id : Nat) : Except ApiError Booking :=
  match st.bookings.find? (fun b => b.id == id) with
  | some b => Except.ok b
  | none => Except.error ApiError.NotFound

/-- The effect of `prisma.booking.update({ where: { id }, data })` on one row:
each supplied field overwrites, each absent field is kept. -/
def applyUpdate (b : Booking) (d : UpdateData) : Booking :=
  { b with
    stationId := d.stationId.getD b.stationId,
    userId := d.userId.getD b.userId,
    startTime := d.startTime.getD b.startTime,
    endTime := d.endTime.getD b.endTime,
    status := d.status.getD b.status }

/-- `update(id, data)`: loads the row (404 if absent), checks availability for
`data.stationId ?? booking.stationId` / `data.startTime ?? booking.startTime`
/ `data.endTime ?? booking.endTime` excluding `id`, throws 409 without
writing on conflict, otherwise writes `data` over the row. -/
def update (st : Store) (id : Nat) (d : UpdateData) : Except ApiError Booking × Store :=
  match findById st id with
  | Except.error e => (Except.error e, st)
  | Except.ok booking =>
    if isStationAvailable st (d.stationId.getD booking.stationId)
        (d.startTime.getD booking.startTime) (d.endTime.getD booking.endTime) (some id) then
      (Except.ok (applyUpdate booking d),
       { bookings := st.bookings.map (fun b => if b.id == id then applyUpdate b d else b),
         nextId := st.nextId })
    else
      (Except.error ApiError.Conflict, st)

/-- `remove(id)`: loads the row (404 if absent) then deletes it; no
availability check anywhere on this path. -/
def remove (st : Store) (id : Nat) : Except ApiError Unit × Store :=
  match findById st id with
  | Except.error e => (Except.error e, st)
  | Except.ok _ =>
    (Except.ok (), { bookings := st.bookings.filter (fun b => b.id != id), nextId := st.nextId })

/-- The filters object `findAll` receives: `status`, `limit`, `offset`, each
possibly absent. `limit`/`offset` are modelled after `parseInt`: `none`
covers an absent or non-numeric value (`parseInt` gives `NaN`). -/
structure ListFilters where
  status : Option String := none
  limit : Option Nat := none
  offset : Option Nat := none
deriving DecidableEq, Repr

/-- `parseInt(filters.limit) || 10`: `NaN` (absent) and `0` are falsy, so both
fall back to 10. -/
def effLimit : Option Nat → Nat
  | none => 10
  | some n => if n = 0 then 10 else n

/-- `parseInt(filters.offset) || 0`: `NaN` (absent) falls back to 0. -/
def effOffset : Option Nat → Nat
  | none => 0
  | some n => n

/-- `if (filters.status) { ... }`: the status filter is applied only when the
value is truthy, i.e. present and non-empty. -/
def statusTruthy : Option String → Option String
  | none => none
  | some s => if s = "" then none else some s

/-- `where.status = { equals: s, mode: "insensitive" }`: case-insensitive
equality of the stored status with the filter value, modelled as equality of
the lowercased character sequences. -/
def statusMatches (s : String) (b : Booking) : Bool :=
  b.status.data.map Char.toLower == s.data.map Char.toLower

/-- `orderBy: { startTime: "desc" }` as a relation: `a` before `b` when
`a.startTime ≥ b.startTime`. -/
def startTimeDescRel (a b : Booking) : Prop :=
  b.startTime ≤ a.startTime

instance : DecidableRel startTimeDescRel :=
  fun a b => inferInstanceAs (Decidable (b.startTime ≤ a.startTime))

instance : IsTotal Booking startTimeDescRel :=
  ⟨fun a b => le_total b.startTime a.startTime⟩

instance : IsTrans Booking startTimeDescRel :=
  ⟨fun _ _ _ h1 h2 => le_trans h2 h1⟩

/-- The shape `findAll` returns: `{ total, count, bookings }`. -/
structure FindAllResult where
  total : Nat
  count : Nat
  bookings : List Booking
deriving DecidableEq, Repr

/-- `findAll(filters)`: builds the `where` clause from `status`, counts the
matching rows (`total`), and pages the matching rows ordered by `startTime`
descending with `skip: offset, take: limit`; `count` is the page length. -/
def findAll (st : Store) (filters : ListFilters) : FindAllResult :=
  let limit := effLimit filters.limit
  let offset := effOffset filters.offset
  let filtered :=
    match statusTruthy filters.status with
    | none => st.bookings
    | some s => st.bookings.filter (statusMatches s)
  let page := ((List.insertionSort startTimeDescRel filtered).drop offset).take limit
  { total := filtered.length, count := page.length, bookings := page }

/-- The predicate of `bookingSchema` (src/schemas/bookingSchema.js) on an
already-typed payload: `status` must be one of the three enum values and the
`refine` requires `startTime < endTime`. -/
def bookingSchemaAccepts (d : BookingData) : Bool :=
  (d.status == "pending" || d.status == "confirmed" || d.status == "cancelled")
    && d.startTime < d.endTime

/-- Modelled from the spec: the `validate` middleware
(src/middlewares/validate.js, not among the provided sources) rejects the
request with a `ValidationError` when `bookingSchema` fails, before the
controller invokes the service — "structural validation happens upstream".
The schema predicate itself is `bookingSchemaAccepts`, from the source. -/
def createValidated (st : Store) (d : BookingData) : Except ApiError Booking × Store :=
  if bookingSchemaAccepts d then create st d
  else (Except.error ApiError.ValidationError, st)

/-- The no-overlap-per-resource invariant of the spec, on a store state: no
two distinct reservations of one station have intersecting half-open
windows. -/
def noOverlapStore (st : Store) : Prop :=
  ∀ a ∈ st.bookings, ∀ b ∈ st.bookings,
    a.id ≠ b.id → a.stationId = b.stationId →
      a.startTime < b.endTime → b.startTime < a.endTime → False

instance (st : Store) : Decidable (noOverlapStore st) := by
  unfold noOverlapStore; infer_instance

/-! ## Basic characterizations of the availability query -/

/-- A booking passes the overlap `where` clause with no exclusion iff it is on
the station and its half-open window intersects the candidate window. -/
theorem matchesOverlapQuery_none_iff (r : Nat) (s e : Int) (b : Booking) :
    matchesOverlapQuery r s e none b = true ↔
      b.stationId = r ∧ b.startTime < e ∧ s < b.endTime := by
  simp [matchesOverlapQuery, and_assoc]

/-- With a nonzero excluded id, a booking passes the overlap `where` clause
iff it additionally is not the excluded row. -/
theorem matchesOverlapQuery_some_iff (r : Nat) (s e : Int) (i : Nat) (hi : i ≠ 0)
    (b : Booking) :
    matchesOverlapQuery r s e (some i) b = true ↔
      b.stationId = r ∧ b.startTime < e ∧ s < b.endTime ∧ b.id ≠ i := by
  simp [matchesOverlapQuery, hi, and_assoc]

/-- `isStationAvailable` returns true iff no stored booking passes the
overlap query. -/
theorem isStationAvailable_true_iff (st : Store) (r : Nat) (s e : Int)
    (ex : Option Nat) :
    isStationAvailable st r s e ex = true ↔
      ∀ b ∈ st.bookings, matchesOverlapQuery r s e ex b = false := by
  unfold isStationAvailable
  simp [List.length_eq_zero, List.filter_eq_nil_iff]

/-- `isStationAvailable` returns false iff some stored booking passes the
overlap query. -/
theorem isStationAvailable_false_iff (st : Store) (r : Nat) (s e : Int)
    (ex : Option Nat) :
    isStationAvailable st r s e ex = false ↔
      ∃ b ∈ st.bookings, matchesOverlapQuery r s e ex b = true := by
  rw [← Bool.not_eq_true, isStationAvailable_true_iff]
  push_neg
  simp

/-- The first projection of `create` is the 409 error exactly when the
availability check fails. -/
theorem create_conflict_iff_check (st : Store) (d : BookingData) :
    (create st d).1 = Except.error ApiError.Conflict ↔
      createCheckPhase st d = false := by
  by_cases h : createCheckPhase st d <;> simp [create, h]

/-! ## C1: the overlap test on create -/

/-- C1: with a single existing reservation A on the candidate's resource,
`create` of candidate B fails with `Conflict` iff
`A.start < B.end ∧ B.start < A.end`; in particular a back-to-back candidate
(`B.start = A.end`) is inserted successfully. -/
theorem create_conflict_overlap_iff (A : Booking) (n : Nat) (d : BookingData)
    (hres : A.stationId = d.stationId) :
    ((create ⟨[A], n⟩ d).1 = Except.error ApiError.Conflict ↔
      A.startTime < d.endTime ∧ d.startTime < A.endTime) ∧
    (d.startTime = A.endTime →
      (create ⟨[A], n⟩ d).1 =
        Except.ok ⟨n, d.stationId, d.userId, d.startTime, d.endTime, d.status⟩) := by
  have hiff : (create ⟨[A], n⟩ d).1 = Except.error ApiError.Conflict ↔
      A.startTime < d.endTime ∧ d.startTime < A.endTime := by
    rw [create_conflict_iff_check]
    unfold createCheckPhase
    rw [isStationAvailable_false_iff]
    constructor
    · rintro ⟨b, hb, hm⟩
      rw [List.mem_singleton] at hb
      subst hb
      rcases (matchesOverlapQuery_none_iff _ _ _ _).1 hm with ⟨_, h1, h2⟩
      exact ⟨h1, h2⟩
    · rintro ⟨h1, h2⟩
      exact ⟨A, List.mem_singleton.2 rfl,
        (matchesOverlapQuery_none_iff _ _ _ _).2 ⟨hres, h1, h2⟩⟩
  refine ⟨hiff, fun hb2b => ?_⟩
  have hc : createCheckPhase ⟨[A], n⟩ d = true := by
    unfold createCheckPhase
    rw [isStationAvailable_true_iff]
    intro b hb
    rw [List.mem_singleton] at hb
    subst hb
    rw [Bool.eq_false_iff]
    intro hm
    rcases (matchesOverlapQuery_none_iff _ _ _ _).1 hm with ⟨_, _, h2⟩
    rw [hb2b] at h2
    exact lt_irrefl _ h2
  simp [create, hc, insertBooking]

/-- C1 witness: `[0,10)` versus `[5,15)` on station 1 at a concrete store. -/
theorem create_conflict_overlap_iff_witness :
    (⟨1, 1, 1, 0, 10, "pending"⟩ : Booking).stationId =
        (⟨1, 2, 5, 15, "pending"⟩ : BookingData).stationId ∧
    ((create ⟨[⟨1, 1, 1, 0, 10, "pending"⟩], 2⟩ ⟨1, 2, 5, 15, "pending"⟩).1 =
        Except.error ApiError.Conflict ↔ (0 : Int) < 15 ∧ (5 : Int) < 10) :=
  ⟨rfl,
   (create_conflict_overlap_iff ⟨1, 1, 1, 0, 10, "pending"⟩ 2 ⟨1, 2, 5, 15, "pending"⟩ rfl).1⟩

/-! ## C4: cancelled reservations still block -/

/-- C4: the conflict-candidate set ignores `status`: an overlapping stored
reservation whose status is `cancelled` still makes `create` fail with
`Conflict` (and leave the store unchanged). -/
theorem cancelled_still_blocks (st : Store) (A : Booking) (d : BookingData)
    (hA : A ∈ st.bookings) (hres : A.stationId = d.stationId)
    (_hstat : A.status = "cancelled")
    (h1 : A.startTime < d.endTime) (h2 : d.startTime < A.endTime) :
    (create st d).1 = Except.error ApiError.Conflict ∧ (create st d).2 = st := by
  have hc : createCheckPhase st d = false := by
    unfold createCheckPhase
    rw [isStationAvailable_false_iff]
    exact ⟨A, hA, (matchesOverlapQuery_none_iff _ _ _ _).2 ⟨hres, h1, h2⟩⟩
  exact ⟨(create_conflict_iff_check st d).2 hc, by simp [create, hc]⟩

/-- C4 witness: a cancelled `[0,10)` blocks a `[5,15)` candidate. -/
theorem cancelled_still_blocks_witness :
    (create ⟨[⟨1, 1, 1, 0, 10, "cancelled"⟩], 2⟩ ⟨1, 2, 5, 15, "pending"⟩).1 =
        Except.error ApiError.Conflict ∧
    (create ⟨[⟨1, 1, 1, 0, 10, "cancelled"⟩], 2⟩ ⟨1, 2, 5, 15, "pending"⟩).2 =
        ⟨[⟨1, 1, 1, 0, 10, "cancelled"⟩], 2⟩ :=
  cancelled_still_blocks ⟨[⟨1, 1, 1, 0, 10, "cancelled"⟩], 2⟩ ⟨1, 1, 1, 0, 10, "cancelled"⟩
    ⟨1, 2, 5, 15, "pending"⟩ (by decide) rfl rfl (by decide) (by decide)

/-! ## C5: a failed conflict check mutates nothing -/

/-- C5: whenever `create` or `update` fails with `Conflict`, the returned
store is exactly the input store — no record inserted, none modified. -/
theorem conflict_is_zero_mutation (st : Store) (d : BookingData) (id : Nat)
    (u : UpdateData) :
    ((create st d).1 = Except.error ApiError.Conflict → (create st d).2 = st) ∧
    ((update st id u).1 = Except.error ApiError.Conflict → (update st id u).2 = st) := by
  constructor
  · intro h
    by_cases hc : createCheckPhase st d
    · simp [create, hc] at h
    · simp [create, hc]
  · intro h
    unfold update at h ⊢
    cases hf : findById st id with
    | error e => rfl
    | ok b =>
      rw [hf] at h
      by_cases ha : isStationAvailable st (u.stationId.getD b.stationId)
          (u.startTime.getD b.startTime) (u.endTime.getD b.endTime) (some id)
      · simp [ha] at h
      · simp [ha]

/-- C5 witness: a conflicting create and a conflicting update against a
two-booking store both leave it untouched. -/
theorem conflict_is_zero_mutation_witness :
    (create ⟨[⟨1, 1, 1, 0, 10, "pending"⟩, ⟨2, 1, 2, 20, 30, "confirmed"⟩], 3⟩
        ⟨1, 3, 5, 15, "pending"⟩).2 =
      ⟨[⟨1, 1, 1, 0, 10, "pending"⟩, ⟨2, 1, 2, 20, 30, "confirmed"⟩], 3⟩ ∧
    (update ⟨[⟨1, 1, 1, 0, 10, "pending"⟩, ⟨2, 1, 2, 20, 30, "confirmed"⟩], 3⟩ 1
        ⟨none, none, none, some 25, none⟩).2 =
      ⟨[⟨1, 1, 1, 0, 10, "pending"⟩, ⟨2, 1, 2, 20, 30, "confirmed"⟩], 3⟩ :=
  ⟨(conflict_is_zero_mutation ⟨[⟨1, 1, 1, 0, 10, "pending"⟩, ⟨2, 1, 2, 20, 30, "confirmed"⟩], 3⟩
      ⟨1, 3, 5, 15, "pending"⟩ 1 ⟨none, none, none, some 25, none⟩).1 (by decide),
   (conflict_is_zero_mutation ⟨[⟨1, 1, 1, 0, 10, "pending"⟩, ⟨2, 1, 2, 20, 30, "confirmed"⟩], 3⟩
      ⟨1, 3, 5, 15, "pending"⟩ 1 ⟨none, none, none, some 25, none⟩).2 (by decide)⟩

/-! ## C6: upstream validation of the time window -/

/-- C6: the exposed create pipeline (zod schema, then service) rejects every
payload with `startTime ≥ endTime` with `ValidationError` and inserts
nothing. -/
theorem create_validates_start_before_end (st : Store) (d : BookingData)
    (h : d.endTime ≤ d.startTime) :
    (createValidated st d).1 = Except.error ApiError.ValidationError ∧
    (createValidated st d).2 = st := by
  have hlt : ¬ d.startTime < d.endTime := not_lt.2 h
  have hs : bookingSchemaAccepts d = false := by
    simp [bookingSchemaAccepts, hlt]
  simp [createValidated, hs]

/-- C6 witness: a candidate with `startTime = 9 > 3 = endTime` is rejected. -/
theorem create_validates_start_before_end_witness :
    (3 : Int) ≤ 9 ∧
    ((createValidated ⟨[], 1⟩ ⟨1, 1, 9, 3, "pending"⟩).1 =
        Except.error ApiError.ValidationError ∧
      (createValidated ⟨[], 1⟩ ⟨1, 1, 9, 3, "pending"⟩).2 = ⟨[], 1⟩) :=
  ⟨by decide, create_validates_start_before_end ⟨[], 1⟩ ⟨1, 1, 9, 3, "pending"⟩ (by decide)⟩

/-! ## C2: the check-then-act race

`create` issues its availability read (`createCheckPhase`, the `findMany`
inside `isStationAvailable`) and its write (`createWritePhase`,
`prisma.booking.create`) as two separate Prisma calls with no surrounding
transaction.  The interleaving below — both reads execute against the
initial store before either write — is therefore allowed: both requests
observe no conflict, both insert, and the resulting store holds two
overlapping reservations of station 1, while either serial order of the two
requests refuses the second one with `Conflict`. -/

/-- C2: the two-phase interleaving of two concurrent `create` calls for
overlapping windows `[0,10)` and `[5,15)` of station 1 passes both
availability checks and writes both rows — a store that violates the
no-overlap invariant and is reachable by no serial order. -/
theorem create_race_breaks_invariant :
    createCheckPhase ⟨[], 1⟩ ⟨1, 1, 0, 10, "pending"⟩ = true ∧
    createCheckPhase ⟨[], 1⟩ ⟨1, 2, 5, 15, "pending"⟩ = true ∧
    (createWritePhase (createWritePhase ⟨[], 1⟩ ⟨1, 1, 0, 10, "pending"⟩)
        ⟨1, 2, 5, 15, "pending"⟩).bookings =
      [⟨1, 1, 1, 0, 10, "pending"⟩, ⟨2, 1, 2, 5, 15, "pending"⟩] ∧
    (0 : Int) < 15 ∧ (5 : Int) < 10 ∧
    (create (create ⟨[], 1⟩ ⟨1, 1, 0, 10, "pending"⟩).2 ⟨1, 2, 5, 15, "pending"⟩).1 =
      Except.error ApiError.Conflict ∧
    (create (create ⟨[], 1⟩ ⟨1, 2, 5, 15, "pending"⟩).2 ⟨1, 1, 0, 10, "pending"⟩).1 =
      Except.error ApiError.Conflict := by
  decide

/-! ## C3: update merges fields and excludes its own id -/

/-- With pairwise distinct ids, `findUnique` by the id of a stored booking
returns that booking. -/
theorem find_by_id_of_nodup (l : List Booking) (X : Booking) (hmem : X ∈ l)
    (hnd : (l.map (fun b => b.id)).Nodup) :
    l.find? (fun b => b.id == X.id) = some X := by
  induction l with
  | nil => cases hmem
  | cons a t ih =>
    rw [List.map_cons, List.nodup_cons] at hnd
    rcases List.mem_cons.1 hmem with h | h
    · subst h
      simp [List.find?_cons]
    · have hne : a.id ≠ X.id := by
        intro he
        exact hnd.1 (he ▸ List.mem_map_of_mem (fun b => b.id) h)
      rw [List.find?_cons_of_neg]
      · exact ih h hnd.2
      · simp [hne]

/-- C3: for a stored reservation X (distinct ids, id nonzero as Prisma
autoincrement guarantees), `update X.id d` (an iff) fails with `Conflict`
exactly when some other reservation overlaps the merged window
(`d` fields over X's current values) on the merged resource; when nothing
else overlaps, it writes X merged with `d`; and under the no-overlap
invariant, updating X to its own window never fails with `Conflict`. -/
theorem update_merges_and_excludes_self (st : Store) (X : Booking) (d : UpdateData)
    (hmem : X ∈ st.bookings)
    (hnd : (st.bookings.map (fun b => b.id)).Nodup)
    (hpos : X.id ≠ 0) :
    ((update st X.id d).1 = Except.error ApiError.Conflict ↔
      ∃ Y ∈ st.bookings, Y.stationId = d.stationId.getD X.stationId ∧
        Y.startTime < d.endTime.getD X.endTime ∧
        d.startTime.getD X.startTime < Y.endTime ∧ Y.id ≠ X.id) ∧
    ((∀ Y ∈ st.bookings, Y.id ≠ X.id →
        Y.stationId = d.stationId.getD X.stationId →
        Y.startTime < d.endTime.getD X.endTime →
        d.startTime.getD X.startTime < Y.endTime → False) →
      update st X.id d =
        (Except.ok (applyUpdate X d),
         ⟨st.bookings.map (fun b => if b.id == X.id then applyUpdate b d else b),
          st.nextId⟩)) ∧
    (noOverlapStore st →
      d.stationId.getD X.stationId = X.stationId →
      d.startTime.getD X.startTime = X.startTime →
      d.endTime.getD X.endTime = X.endTime →
      (update st X.id d).1 = Except.ok (applyUpdate X d)) := by
  have hfind : findById st X.id = Except.ok X := by
    unfold findById
    rw [find_by_id_of_nodup st.bookings X hmem hnd]
  have hok : (∀ Y ∈ st.bookings, Y.id ≠ X.id →
      Y.stationId = d.stationId.getD X.stationId →
      Y.startTime < d.endTime.getD X.endTime →
      d.startTime.getD X.startTime < Y.endTime → False) →
      update st X.id d =
        (Except.ok (applyUpdate X d),
         ⟨st.bookings.map (fun b => if b.id == X.id then applyUpdate b d else b),
          st.nextId⟩) := by
    intro hno
    have ha : isStationAvailable st (d.stationId.getD X.stationId)
        (d.startTime.getD X.startTime) (d.endTime.getD X.endTime) (some X.id) = true := by
      rw [isStationAvailable_true_iff]
      intro Y hY
      rw [Bool.eq_false_iff]
      intro hm
      rcases (matchesOverlapQuery_some_iff _ _ _ _ hpos Y).1 hm with ⟨hst, h1, h2, hne⟩
      exact hno Y hY hne hst h1 h2
    unfold update
    rw [hfind]
    dsimp only
    rw [ha]
    simp
  refine ⟨?_, hok, ?_⟩
  · unfold update
    rw [hfind]
    by_cases ha : isStationAvailable st (d.stationId.getD X.stationId)
        (d.startTime.getD X.startTime) (d.endTime.getD X.endTime) (some X.id)
    · simp only [ha, if_true]
      constructor
      · intro h
        exact absurd h (by simp)
      · rintro ⟨Y, hY, hst, h1, h2, hne⟩
        rw [isStationAvailable_true_iff] at ha
        have hm : matchesOverlapQuery (d.stationId.getD X.stationId)
            (d.startTime.getD X.startTime) (d.endTime.getD X.endTime) (some X.id) Y = true :=
          (matchesOverlapQuery_some_iff _ _ _ _ hpos Y).2 ⟨hst, h1, h2, hne⟩
        rw [ha Y hY] at hm
        exact absurd hm (by simp)
    · simp only [ha, if_false]
      constructor
      · intro _
        rcases (isStationAvailable_false_iff _ _ _ _ _).1 (Bool.eq_false_iff.2 ha)
          with ⟨Y, hY, hm⟩
        exact ⟨Y, hY, (matchesOverlapQuery_some_iff _ _ _ _ hpos Y).1 hm⟩
      · intro _
        rfl
  · intro hinv hr hs he
    have hno : ∀ Y ∈ st.bookings, Y.id ≠ X.id →
        Y.stationId = d.stationId.getD X.stationId →
        Y.startTime < d.endTime.getD X.endTime →
        d.startTime.getD X.startTime < Y.endTime → False := by
      intro Y hY hne hst h1 h2
      rw [hr] at hst
      rw [he] at h1
      rw [hs] at h2
      exact hinv Y hY X hmem hne hst h1 h2
    rw [hok hno]

/-- C3 witness: on a two-booking store, a status-only update of booking 1
(its window unchanged) succeeds and the merged record keeps its window. -/
theorem update_merges_and_excludes_self_witness :
    noOverlapStore ⟨[⟨1, 1, 1, 0, 10, "pending"⟩, ⟨2, 1, 2, 20, 30, "confirmed"⟩], 3⟩ ∧
    (update ⟨[⟨1, 1, 1, 0, 10, "pending"⟩, ⟨2, 1, 2, 20, 30, "confirmed"⟩], 3⟩ 1
        ⟨none, none, none, none, some "confirmed"⟩).1 =
      Except.ok ⟨1, 1, 1, 0, 10, "confirmed"⟩ :=
  ⟨by decide,
   (update_merges_and_excludes_self
      ⟨[⟨1, 1, 1, 0, 10, "pending"⟩, ⟨2, 1, 2, 20, 30, "confirmed"⟩], 3⟩
      ⟨1, 1, 1, 0, 10, "pending"⟩ ⟨none, none, none, none, some "confirmed"⟩
      (by decide) (by decide) (by decide)).2.2 (by decide) rfl rfl rfl⟩

/-! ## C7: NotFound paths and removal -/

/-- C7: for an absent id, `findById`, `update` and `remove` all fail with
`NotFound` and leave the store unchanged; for a stored reservation X,
`remove X.id` deletes it with no availability check at all (it succeeds on
every store containing X), and afterwards — under the no-overlap
invariant — a reservation with X's exact window and resource is created
successfully. -/
theorem notfound_and_remove_semantics (st : Store) (id : Nat) (d : UpdateData)
    (X : Booking) (u : Nat) (stat : String) :
    ((∀ b ∈ st.bookings, b.id ≠ id) →
      findById st id = Except.error ApiError.NotFound ∧
      update st id d = (Except.error ApiError.NotFound, st) ∧
      remove st id = (Except.error ApiError.NotFound, st)) ∧
    (X ∈ st.bookings →
      remove st X.id =
        (Except.ok (), ⟨st.bookings.filter (fun b => b.id != X.id), st.nextId⟩)) ∧
    (X ∈ st.bookings → noOverlapStore st →
      ∃ b, (create (remove st X.id).2
          ⟨X.stationId, u, X.startTime, X.endTime, stat⟩).1 = Except.ok b) := by
  have habsent : (∀ b ∈ st.bookings, b.id ≠ id) →
      findById st id = Except.error ApiError.NotFound := by
    intro h
    unfold findById
    have : st.bookings.find? (fun b => b.id == id) = none :=
      List.find?_eq_none.2 (fun b hb => by simp [h b hb])
    rw [this]
  have hpresent : X ∈ st.bookings →
      remove st X.id =
        (Except.ok (), ⟨st.bookings.filter (fun b => b.id != X.id), st.nextId⟩) := by
    intro hX
    unfold remove findById
    cases hf : st.bookings.find? (fun b => b.id == X.id) with
    | none =>
      exact absurd (List.find?_eq_none.1 hf X hX) (by simp)
    | some b =>
      rfl
  refine ⟨fun h => ⟨habsent h, ?_, ?_⟩, hpresent, ?_⟩
  · unfold update
    rw [habsent h]
  · unfold remove
    rw [habsent h]
  · intro hX hinv
    rw [hpresent hX]
    have hc : createCheckPhase ⟨st.bookings.filter (fun b => b.id != X.id), st.nextId⟩
        ⟨X.stationId, u, X.startTime, X.endTime, stat⟩ = true := by
      unfold createCheckPhase
      rw [isStationAvailable_true_iff]
      intro Y hY
      rw [List.mem_filter] at hY
      rw [Bool.eq_false_iff]
      intro hm
      rcases (matchesOverlapQuery_none_iff _ _ _ _).1 hm with ⟨hst, h1, h2⟩
      exact hinv Y hY.1 X hX (by simpa using hY.2) hst h1 h2
    exact ⟨(insertBooking ⟨st.bookings.filter (fun b => b.id != X.id), st.nextId⟩
        ⟨X.stationId, u, X.startTime, X.endTime, stat⟩).1, by simp [create, hc]⟩

/-- C7 witness: removing the only reservation succeeds without any conflict
check, and re-creating its exact window then succeeds. -/
theorem notfound_and_remove_semantics_witness :
    remove ⟨[⟨1, 1, 1, 0, 10, "pending"⟩], 2⟩ 1 = (Except.ok (), ⟨[], 2⟩) ∧
    (∃ b, (create (remove ⟨[⟨1, 1, 1, 0, 10, "pending"⟩], 2⟩ 1).2
        ⟨1, 2, 0, 10, "confirmed"⟩).1 = Except.ok b) :=
  ⟨(notfound_and_remove_semantics ⟨[⟨1, 1, 1, 0, 10, "pending"⟩], 2⟩ 1
      ⟨none, none, none, none, none⟩ ⟨1, 1, 1, 0, 10, "pending"⟩ 2 "confirmed").2.1
      (by decide),
   (notfound_and_remove_semantics ⟨[⟨1, 1, 1, 0, 10, "pending"⟩], 2⟩ 1
      ⟨none, none, none, none, none⟩ ⟨1, 1, 1, 0, 10, "pending"⟩ 2 "confirmed").2.2
      (by decide) (by decide)⟩

/-! ## C8: listing defaults, ordering and pagination -/

/-- C8: `findAll` with absent limit/offset equals `findAll` with
`limit = 10, offset = 0`; every page is ordered by `startTime` descending;
and on a store of exactly three reservations with pairwise distinct start
times, `{limit: 1, offset: 1}` yields `total = 3`, `count = 1`, and the one
item is the second-most-recent: exactly one of the three starts later. -/
theorem findAll_defaults_order_pagination :
    (∀ (st : Store) (s : Option String),
      findAll st ⟨s, none, none⟩ = findAll st ⟨s, some 10, some 0⟩) ∧
    (∀ (st : Store) (f : ListFilters),
      (findAll st f).bookings.Sorted startTimeDescRel) ∧
    (∀ (b1 b2 b3 : Booking) (n : Nat),
      b1.startTime ≠ b2.startTime → b1.startTime ≠ b3.startTime →
      b2.startTime ≠ b3.startTime →
      ∃ m, findAll ⟨[b1, b2, b3], n⟩ ⟨none, some 1, some 1⟩ = ⟨3, 1, [m]⟩ ∧
        m ∈ [b1, b2, b3] ∧
        ([b1, b2, b3].countP (fun b => decide (m.startTime < b.startTime))) = 1) := by
  refine ⟨fun st s => rfl, ?_, ?_⟩
  · intro st f
    show List.Sorted startTimeDescRel
      (((List.insertionSort startTimeDescRel
          (match statusTruthy f.status with
           | none => st.bookings
           | some s => st.bookings.filter (statusMatches s))).drop
            (effOffset f.offset)).take (effLimit f.limit))
    exact List.Pairwise.sublist ((List.take_sublist _ _).trans (List.drop_sublist _ _))
      (List.sorted_insertionSort startTimeDescRel _)
  · intro b1 b2 b3 n h12 h13 h23
    have hperm : (List.insertionSort startTimeDescRel [b1, b2, b3]).Perm [b1, b2, b3] :=
      List.perm_insertionSort _ _
    have hlen : (List.insertionSort startTimeDescRel [b1, b2, b3]).length = 3 := by
      rw [hperm.length_eq]
      rfl
    obtain ⟨x, y, z, hxyz⟩ := List.length_eq_three.1 hlen
    have hsorted := List.sorted_insertionSort startTimeDescRel [b1, b2, b3]
    rw [hxyz] at hsorted hperm
    obtain ⟨hxall, hsorted2⟩ := List.sorted_cons.1 hsorted
    obtain ⟨hyall, _⟩ := List.sorted_cons.1 hsorted2
    have hxy : y.startTime ≤ x.startTime := hxall y (by simp)
    have hyz : z.startTime ≤ y.startTime := hyall z (by simp)
    have hP : ([b1, b2, b3] : List Booking).Pairwise
        (fun a b => a.startTime ≠ b.startTime) := by
      refine List.Pairwise.cons ?_ (List.Pairwise.cons ?_ (List.pairwise_singleton _ _))
      · intro a ha
        rcases List.mem_cons.1 ha with h | h
        · subst h; exact h12
        · rw [List.mem_singleton] at h; subst h; exact h13
      · intro a ha
        rw [List.mem_singleton] at ha; subst ha; exact h23
    have hDist := (hperm.pairwise_iff (fun hab => Ne.symm hab)).2 hP
    obtain ⟨hxd, hDist2⟩ := List.pairwise_cons.1 hDist
    obtain ⟨hyd, _⟩ := List.pairwise_cons.1 hDist2
    have dxy : x.startTime ≠ y.startTime := hxd y (by simp)
    have dyz : y.startTime ≠ z.startTime := hyd z (by simp)
    have hpx : y.startTime < x.startTime := lt_of_le_of_ne hxy dxy.symm
    refine ⟨y, ?_, ?_, ?_⟩
    · have hfa : findAll ⟨[b1, b2, b3], n⟩ ⟨none, some 1, some 1⟩ =
          ⟨3, (((List.insertionSort startTimeDescRel [b1, b2, b3]).drop 1).take 1).length,
           ((List.insertionSort startTimeDescRel [b1, b2, b3]).drop 1).take 1⟩ := rfl
      rw [hfa, hxyz]
      rfl
    · exact hperm.mem_iff.1 (by simp)
    · rw [← hperm.countP_eq]
      simp [List.countP_cons, hpx, not_lt.2 hyz, dyz]

/-- C8 witness: the `{limit: 1, offset: 1}` page of a concrete three-booking
store is its second-most-recent reservation. -/
theorem findAll_defaults_order_pagination_witness :
    ∃ m, findAll ⟨[⟨1, 1, 1, 0, 10, "pending"⟩, ⟨2, 1, 2, 20, 30, "confirmed"⟩,
        ⟨3, 2, 3, 40, 50, "cancelled"⟩], 4⟩ ⟨none, some 1, some 1⟩ = ⟨3, 1, [m]⟩ ∧
      m ∈ [⟨1, 1, 1, 0, 10, "pending"⟩, ⟨2, 1, 2, 20, 30, "confirmed"⟩,
        ⟨3, 2, 3, 40, 50, "cancelled"⟩] ∧
      ([⟨1, 1, 1, 0, 10, "pending"⟩, ⟨2, 1, 2, 20, 30, "confirmed"⟩,
        ⟨3, 2, 3, 40, 50, "cancelled"⟩] : List Booking).countP
          (fun b => decide (m.startTime < b.startTime)) = 1 :=
  findAll_defaults_order_pagination.2.2 ⟨1, 1, 1, 0, 10, "pending"⟩
    ⟨2, 1, 2, 20, 30, "confirmed"⟩ ⟨3, 2, 3, 40, 50, "cancelled"⟩ 4
    (by decide) (by decide) (by decide)

/-! ## C9: an unrecognized status value is NOT "no filter"

`findAll` applies the status clause whenever `filters.status` is truthy
(non-empty), whatever its value: an unrecognized value is matched
case-insensitively against the stored statuses and so returns an empty
result, not the unfiltered listing. -/

/-- C9 counterexample: on a store with one `pending` reservation, the
unrecognized status value `"bogus"` returns `total = 0` and an empty page,
while the call without a status filter returns the reservation — the two
results differ, so an unrecognized value does not behave as "no filter". -/
theorem findAll_unrecognized_status_cex :
    findAll ⟨[⟨1, 1, 1, 0, 10, "pending"⟩], 2⟩ ⟨some "bogus", none, none⟩ = ⟨0, 0, []⟩ ∧
    findAll ⟨[⟨1, 1, 1, 0, 10, "pending"⟩], 2⟩ ⟨none, none, none⟩ =
      ⟨1, 1, [⟨1, 1, 1, 0, 10, "pending"⟩]⟩ := by
  decide

/-- C9 (amended): only an absent or empty status means "no filter"; a
non-empty status value is always applied as a case-insensitive equality
filter, so a value matching no stored reservation yields `total = 0` and an
empty page instead of the unfiltered result. -/
theorem findAll_status_filter_truthy :
    (∀ (st : Store) (l o : Option Nat),
      findAll st ⟨some "", l, o⟩ = findAll st ⟨none, l, o⟩) ∧
    (∀ (st : Store) (s : String) (l o : Option Nat),
      s ≠ "" → (∀ b ∈ st.bookings, statusMatches s b = false) →
      findAll st ⟨some s, l, o⟩ = ⟨0, 0, []⟩) := by
  constructor
  · intro st l o
    rfl
  · intro st s l o hs hnone
    have hfilter : st.bookings.filter (statusMatches s) = [] :=
      List.filter_eq_nil_iff.2 (fun b hb => by simp [hnone b hb])
    have hts : statusTruthy (some s) = some s := by
      simp [statusTruthy, hs]
    simp only [findAll, hts, hfilter]
    simp [List.insertionSort]

/-- C9 witness: the amended statement applied to the `"bogus"` filter on a
one-booking store. -/
theorem findAll_status_filter_truthy_witness :
    findAll ⟨[⟨1, 1, 1, 0, 10, "pending"⟩], 2⟩ ⟨some "bogus", none, none⟩ = ⟨0, 0, []⟩ :=
  findAll_status_filter_truthy.2 ⟨[⟨1, 1, 1, 0, 10, "pending"⟩], 2⟩ "bogus" none none
    (by decide) (by decide)

/-! ## C10: degenerate candidate windows are not special-cased -/

/-- C10 counterexample: with `[0,10)` stored on station 1, the degenerate
candidate `[5,5)` (startTime = endTime) is reported unavailable and
`create` fails with `Conflict` leaving the store unchanged; symmetrically a
stored degenerate `[5,5)` blocks a later `[0,10)` candidate. -/
theorem degenerate_window_cex :
    isStationAvailable ⟨[⟨1, 1, 1, 0, 10, "pending"⟩], 2⟩ 1 5 5 none = false ∧
    (create ⟨[⟨1, 1, 1, 0, 10, "pending"⟩], 2⟩ ⟨1, 1, 5, 5, "pending"⟩).1 =
      Except.error ApiError.Conflict ∧
    (create ⟨[⟨1, 1, 1, 0, 10, "pending"⟩], 2⟩ ⟨1, 1, 5, 5, "pending"⟩).2 =
      ⟨[⟨1, 1, 1, 0, 10, "pending"⟩], 2⟩ ∧
    (create ⟨[⟨1, 1, 1, 5, 5, "pending"⟩], 2⟩ ⟨1, 1, 0, 10, "pending"⟩).1 =
      Except.error ApiError.Conflict := by
  decide

/-- C10 (amended): the availability check applies the same strict-inequality
test to a degenerate candidate window (`startTime ≥ endTime`): it reports
available iff no stored reservation of the resource has
`start < candidate.end` and `end > candidate.start` — an existing interval
strictly spanning the degenerate window still conflicts — and a stored
degenerate reservation blocks exactly the candidates satisfying the same
test against it. -/
theorem degenerate_window_not_special :
    (∀ (st : Store) (r : Nat) (s e : Int), e ≤ s →
      (isStationAvailable st r s e none = true ↔
        ∀ b ∈ st.bookings, b.stationId = r → b.startTime < e → b.endTime ≤ s)) ∧
    (∀ (A : Booking) (n : Nat) (d : BookingData), A.endTime ≤ A.startTime →
      A.stationId = d.stationId →
      ((create ⟨[A], n⟩ d).1 = Except.error ApiError.Conflict ↔
        A.startTime < d.endTime ∧ d.startTime < A.endTime)) := by
  constructor
  · intro st r s e _
    rw [isStationAvailable_true_iff]
    constructor
    · intro h b hb hst h1
      by_contra hc
      push_neg at hc
      have hm := (matchesOverlapQuery_none_iff r s e b).2 ⟨hst, h1, hc⟩
      rw [h b hb] at hm
      exact absurd hm (by simp)
    · intro h b hb
      rw [Bool.eq_false_iff]
      intro hm
      rcases (matchesOverlapQuery_none_iff _ _ _ _).1 hm with ⟨hst, h1, h2⟩
      exact absurd (h b hb hst h1) (not_le.2 h2)
  · intro A n d _ hres
    rw [create_conflict_iff_check]
    unfold createCheckPhase
    rw [isStationAvailable_false_iff]
    constructor
    · rintro ⟨b, hb, hm⟩
      rw [List.mem_singleton] at hb
      subst hb
      rcases (matchesOverlapQuery_none_iff _ _ _ _).1 hm with ⟨_, h1, h2⟩
      exact ⟨h1, h2⟩
    · rintro ⟨h1, h2⟩
      exact ⟨A, List.mem_singleton.2 rfl,
        (matchesOverlapQuery_none_iff _ _ _ _).2 ⟨hres, h1, h2⟩⟩

/-- C10 witness: the amended characterization applied to the degenerate
candidate `[5,5)` against a stored `[0,10)`, and to a stored degenerate
`[5,5)` against a `[0,10)` candidate. -/
theorem degenerate_window_not_special_witness :
    (isStationAvailable ⟨[⟨1, 1, 1, 0, 10, "pending"⟩], 2⟩ 1 5 5 none = true ↔
      ∀ b ∈ (⟨[⟨1, 1, 1, 0, 10, "pending"⟩], 2⟩ : Store).bookings,
        b.stationId = 1 → b.startTime < 5 → b.endTime ≤ 5) ∧
    ((create ⟨[⟨1, 1, 1, 5, 5, "pending"⟩], 2⟩ ⟨1, 1, 0, 10, "pending"⟩).1 =
        Except.error ApiError.Conflict ↔ (5 : Int) < 10 ∧ (0 : Int) < 5) :=
  ⟨degenerate_window_not_special.1 ⟨[⟨1, 1, 1, 0, 10, "pending"⟩], 2⟩ 1 5 5 (by decide),
   degenerate_window_not_special.2 ⟨1, 1, 1, 5, 5, "pending"⟩ 2 ⟨1, 1, 0, 10, "pending"⟩
     (by decide) rfl⟩

end LanParty
